import Mathlib

/-!
Verification of the Coyote motion-to-pulse conversion engine
(device/coyote/motion_algorithm.py).

The Python source is shallowly embedded: pure computations on floats are
modelled over the rationals (over the reals where sqrt or sin appears),
mutable instance state is passed explicitly as small state structures, and
the live-polled settings become explicit function arguments.
-/

namespace CoyoteMotion

/-- Modelled from the spec: the helper clamp imported from
device.coyote.common (the module itself is not part of the sources);
the spec describes every use as clamping a value into a closed
interval, e.g. amplitudes into 0..1 and intensities into 0..100. -/
def clamp {A : Type} [LinearOrder A] (value min_value max_value : A) : A :=
  max min_value (min value max_value)

theorem le_clamp {A : Type} [LinearOrder A] (value min_value max_value : A) :
    min_value ≤ clamp value min_value max_value :=
  le_max_left _ _

theorem clamp_le {A : Type} [LinearOrder A] (value min_value max_value : A)
    (h : min_value ≤ max_value) : clamp value min_value max_value ≤ max_value :=
  max_le h (min_le_right _ _)

theorem clamp_eq_of_mem {A : Type} [LinearOrder A] (value min_value max_value : A)
    (h0 : min_value ≤ value) (h1 : value ≤ max_value) :
    clamp value min_value max_value = value := by
  unfold clamp
  rw [min_eq_left h1, max_eq_right h0]

/-- Fade state of the engine: _fade_level and _last_fade_time
(motion_algorithm.py lines 58-60). -/
structure FadeState where
  fade_level : ℚ
  last_fade_time : Option ℚ

/-- movement_threshold = 0.01 (line 382). -/
def movement_threshold : ℚ := 0.01

/-- time_delta computation of _calculate_motion_amplitude (lines 388-391):
0.0 when _last_fade_time is None, otherwise current_time - _last_fade_time. -/
def fadeDt (st : FadeState) (current_time : ℚ) : ℚ :=
  match st.last_fade_time with
  | none => 0
  | some t => current_time - t

/-- The fade-level update of _calculate_motion_amplitude (lines 384-414):
classify movement as abs(velocity) > movement_threshold, then move
fade_level by fade_rate * time_delta towards 1 (moving) or 0 (paused),
jumping straight to the endpoint unless both the fade duration and the
time delta are positive.  Returns the updated fade state. -/
def fadeUpdate (st : FadeState) (velocity current_time fade_in_time fade_out_time : ℚ) :
    FadeState :=
  let time_delta := fadeDt st current_time
  let new_level :=
    if |velocity| > movement_threshold then
      if fade_in_time > 0 ∧ time_delta > 0 then
        min 1 (st.fade_level + 1 / fade_in_time * time_delta)
      else 1
    else
      if fade_out_time > 0 ∧ time_delta > 0 then
        max 0 (st.fade_level - 1 / fade_out_time * time_delta)
      else 0
  { fade_level := new_level, last_fade_time := some current_time }

/-- The fade-level transition exactly as the claim states it: moving means
min(1, fade_level + dt/fade_in_time) with a jump to 1 only when
fade_in_time <= 0, and not moving means max(0, fade_level - dt/fade_out_time)
with a jump to 0 only when fade_out_time <= 0. -/
def claimedFadeLevel (fade_level dt velocity fade_in_time fade_out_time : ℚ) : ℚ :=
  if |velocity| > movement_threshold then
    if fade_in_time ≤ 0 then 1 else min 1 (fade_level + dt / fade_in_time)
  else
    if fade_out_time ≤ 0 then 0 else max 0 (fade_level - dt / fade_out_time)

theorem fadeUpdate_last (st : FadeState) (v t fit fot : ℚ) :
    (fadeUpdate st v t fit fot).last_fade_time = some t := rfl

theorem fadeUpdate_mem (st : FadeState) (v t fit fot : ℚ)
    (h0 : 0 ≤ st.fade_level) (h1 : st.fade_level ≤ 1) :
    0 ≤ (fadeUpdate st v t fit fot).fade_level ∧
    (fadeUpdate st v t fit fot).fade_level ≤ 1 := by
  unfold fadeUpdate
  dsimp only
  split
  · split
    · rename_i hc
      constructor
      · exact le_min (by norm_num)
          (add_nonneg h0 (le_of_lt (mul_pos (one_div_pos.mpr hc.1) hc.2)))
      · exact min_le_left _ _
    · exact ⟨by norm_num, le_refl 1⟩
  · split
    · rename_i hc
      constructor
      · exact le_max_left _ _
      · exact max_le (by norm_num)
          (le_trans (sub_le_self _ (le_of_lt (mul_pos (one_div_pos.mpr hc.1) hc.2))) h1)
    · exact ⟨le_refl 0, by norm_num⟩

/-- Claim C1 counterexample: on the very first call (time delta 0) with a
moving velocity and fade_in_time = 1 > 0, the code jumps the fade level
straight to 1, while the transition rule stated in the claim
(min(1, fade_level + dt/fade_in_time), jumping only when fade_in_time <= 0)
would leave it at 0. -/
theorem claim_C1_counterexample :
    (fadeUpdate ⟨0, none⟩ 1 0 1 1).fade_level = 1 ∧
    claimedFadeLevel 0 (fadeDt ⟨0, none⟩ 0) 1 1 1 = 0 := by
  constructor
  · norm_num [fadeUpdate, fadeDt, movement_threshold]
  · norm_num [claimedFadeLevel, fadeDt, movement_threshold]

/-- Claim C1 (amended): dt is the time since the previous call (0 on the
first call).  If the velocity classifies as moving (abs v > 0.01) and both
fade_in_time > 0 and dt > 0, the stored fade level becomes
min(1, fade_level + dt/fade_in_time); if fade_in_time <= 0 or dt <= 0 it
jumps to 1 immediately.  If not moving it becomes
max(0, fade_level - dt/fade_out_time) when fade_out_time > 0 and dt > 0,
and jumps to 0 when fade_out_time <= 0 or dt <= 0.  Consequently
fade_level stays in the interval 0..1, and in the non-jumping branches it
changes by at most dt/fade_in_time (resp. dt/fade_out_time). -/
theorem claim_C1_fade_transition (st : FadeState) (v t fit fot : ℚ)
    (h0 : 0 ≤ st.fade_level) (h1 : st.fade_level ≤ 1) :
    (fadeUpdate st v t fit fot).last_fade_time = some t ∧
    (0 ≤ (fadeUpdate st v t fit fot).fade_level ∧
      (fadeUpdate st v t fit fot).fade_level ≤ 1) ∧
    (|v| > movement_threshold →
      (fit > 0 → fadeDt st t > 0 →
        (fadeUpdate st v t fit fot).fade_level
            = min 1 (st.fade_level + fadeDt st t / fit) ∧
        (fadeUpdate st v t fit fot).fade_level - st.fade_level ≤ fadeDt st t / fit) ∧
      (fit ≤ 0 ∨ fadeDt st t ≤ 0 → (fadeUpdate st v t fit fot).fade_level = 1)) ∧
    (¬(|v| > movement_threshold) →
      (fot > 0 → fadeDt st t > 0 →
        (fadeUpdate st v t fit fot).fade_level
            = max 0 (st.fade_level - fadeDt st t / fot) ∧
        st.fade_level - (fadeUpdate st v t fit fot).fade_level ≤ fadeDt st t / fot) ∧
      (fot ≤ 0 ∨ fadeDt st t ≤ 0 → (fadeUpdate st v t fit fot).fade_level = 0)) := by
  refine ⟨rfl, fadeUpdate_mem st v t fit fot h0 h1, ?_, ?_⟩
  · intro hm
    constructor
    · intro hfit hdt
      have hval : (fadeUpdate st v t fit fot).fade_level
          = min 1 (st.fade_level + 1 / fit * fadeDt st t) := by
        unfold fadeUpdate
        dsimp only
        rw [if_pos hm, if_pos ⟨hfit, hdt⟩]
      rw [hval, one_div_mul_eq_div]
      refine ⟨rfl, ?_⟩
      have := min_le_right (1 : ℚ) (st.fade_level + fadeDt st t / fit)
      linarith
    · intro hcase
      unfold fadeUpdate
      dsimp only
      rw [if_pos hm, if_neg]
      intro hc
      rcases hcase with h | h
      · linarith [hc.1]
      · linarith [hc.2]
  · intro hm
    constructor
    · intro hfot hdt
      have hval : (fadeUpdate st v t fit fot).fade_level
          = max 0 (st.fade_level - 1 / fot * fadeDt st t) := by
        unfold fadeUpdate
        dsimp only
        rw [if_neg hm, if_pos ⟨hfot, hdt⟩]
      rw [hval, one_div_mul_eq_div]
      refine ⟨rfl, ?_⟩
      have := le_max_right (0 : ℚ) (st.fade_level - fadeDt st t / fot)
      linarith
    · intro hcase
      unfold fadeUpdate
      dsimp only
      rw [if_neg hm, if_neg]
      intro hc
      rcases hcase with h | h
      · linarith [hc.1]
      · linarith [hc.2]

/-- Witness for claim C1 at a concrete input: first call, moving,
fade_in_time = 1, so the jump branch fires and the level becomes 1. -/
theorem claim_C1_witness :
    (fadeUpdate ⟨0, none⟩ 1 0 1 1).fade_level = 1 :=
  ((claim_C1_fade_transition ⟨0, none⟩ 1 0 1 1 (by norm_num) (by norm_num)).2.2.1
    (by norm_num [movement_threshold])).2 (Or.inr (by norm_num [fadeDt]))

/-- _calculate_motion_amplitude (lines 364-439): update the fade state,
return 0 once fully faded out, otherwise scale the position-shaped raw
amplitude (base 0.6 plus up to 0.3 extreme boost) by the fade level and
clamp into 0..1.  Returns the updated fade state and the amplitude. -/
def calcMotionAmplitude (st : FadeState)
    (normalized_pos velocity current_time fade_in_time fade_out_time : ℚ) :
    FadeState × ℚ :=
  let st1 := fadeUpdate st velocity current_time fade_in_time fade_out_time
  if st1.fade_level ≤ 0 then (st1, 0)
  else
    let base_amp : ℚ := 0.6
    let distance_from_center := |normalized_pos - 0.5| * 2
    let extreme_boost := distance_from_center * 0.3
    let raw_amplitude := base_amp + extreme_boost
    let amplitude := raw_amplitude * st1.fade_level
    (st1, clamp amplitude 0 1)

/-- Claim C4: after the fade update, a fade level <= 0 yields amplitude 0;
otherwise the amplitude is clamp((0.6 + abs(p - 0.5) * 2 * 0.3) * fade_level, 0, 1);
hence the returned amplitude lies in 0..0.9, reaching 0.9 only at a
position extreme with fade level 1. -/
theorem claim_C4_amplitude (st : FadeState) (p v t fit fot : ℚ)
    (hp0 : 0 ≤ p) (hp1 : p ≤ 1) (h0 : 0 ≤ st.fade_level) (h1 : st.fade_level ≤ 1) :
    ((fadeUpdate st v t fit fot).fade_level ≤ 0 →
      (calcMotionAmplitude st p v t fit fot).2 = 0) ∧
    (0 < (fadeUpdate st v t fit fot).fade_level →
      (calcMotionAmplitude st p v t fit fot).2
        = clamp ((0.6 + |p - 0.5| * 2 * 0.3) * (fadeUpdate st v t fit fot).fade_level) 0 1) ∧
    0 ≤ (calcMotionAmplitude st p v t fit fot).2 ∧
    (calcMotionAmplitude st p v t fit fot).2 ≤ 0.9 ∧
    ((calcMotionAmplitude st p v t fit fot).2 = 0.9 →
      (p = 0 ∨ p = 1) ∧ (fadeUpdate st v t fit fot).fade_level = 1) := by
  have hmem := fadeUpdate_mem st v t fit fot h0 h1
  have hA0 : (0 : ℚ) ≤ |p - 0.5| := abs_nonneg _
  have hA1 : |p - 0.5| ≤ 0.5 := abs_le.mpr ⟨by linarith, by linarith⟩
  unfold calcMotionAmplitude
  dsimp only
  by_cases hle : (fadeUpdate st v t fit fot).fade_level ≤ 0
  · rw [if_pos hle]
    refine ⟨fun _ => rfl, fun hpos => absurd hpos (not_lt.mpr hle), le_refl 0,
      by norm_num, fun h => absurd h (by norm_num)⟩
  · rw [if_neg hle]
    have hpos : 0 < (fadeUpdate st v t fit fot).fade_level := not_le.mp hle
    have hx0 : 0 ≤ (0.6 + |p - 0.5| * 2 * 0.3) * (fadeUpdate st v t fit fot).fade_level :=
      mul_nonneg (by linarith) hmem.1
    have hx9 : (0.6 + |p - 0.5| * 2 * 0.3) * (fadeUpdate st v t fit fot).fade_level ≤ 0.9 := by
      have := mul_le_mul (by linarith : (0.6 + |p - 0.5| * 2 * 0.3) ≤ 0.9)
        hmem.2 hmem.1 (by norm_num)
      linarith
    have hcl : clamp ((0.6 + |p - 0.5| * 2 * 0.3) * (fadeUpdate st v t fit fot).fade_level) 0 1
        = (0.6 + |p - 0.5| * 2 * 0.3) * (fadeUpdate st v t fit fot).fade_level :=
      clamp_eq_of_mem _ _ _ hx0 (by linarith)
    refine ⟨fun hc => absurd hc hle, fun _ => rfl, ?_, ?_, ?_⟩
    · dsimp only
      rw [hcl]
      exact hx0
    · dsimp only
      rw [hcl]
      exact hx9
    · dsimp only
      rw [hcl]
      intro heq
      have hge : 1 ≤ (fadeUpdate st v t fit fot).fade_level := by
        nlinarith [mul_nonneg (by linarith : (0 : ℚ) ≤ 0.9 - (0.6 + |p - 0.5| * 2 * 0.3))
          hmem.1]
      have hfl1 : (fadeUpdate st v t fit fot).fade_level = 1 := le_antisymm hmem.2 hge
      have hx : (0.6 : ℚ) + |p - 0.5| * 2 * 0.3 = 0.9 := by
        rw [hfl1, mul_one] at heq
        linarith
      have hA : |p - 0.5| = 0.5 := by linarith
      rcases (abs_eq (by norm_num : (0 : ℚ) ≤ 0.5)).mp hA with h | h
      · exact ⟨Or.inr (by linarith), hfl1⟩
      · exact ⟨Or.inl (by linarith), hfl1⟩

/-- Witness for claim C4 at a concrete input: first call, moving at a
position extreme, so the amplitude bound 0.9 is met. -/
theorem claim_C4_witness :
    (calcMotionAmplitude ⟨0, none⟩ 0 1 0 1 1).2 ≤ 0.9 :=
  (claim_C4_amplitude ⟨0, none⟩ 0 1 0 1 1 (le_refl 0) (by norm_num)
    (le_refl 0) (by norm_num)).2.2.2.1

/-- _apply_positional_effect (lines 441-453): sqrt-based channel split of
the amplitude, with the hard-coded positional_strength = 1.0. -/
noncomputable def applyPositionalEffect (amplitude position : ℝ) : ℝ × ℝ :=
  let positional_strength : ℝ := 1
  let effective_position := 0.5 * (1 - positional_strength) + position * positional_strength
  (amplitude * Real.sqrt (1 - effective_position), amplitude * Real.sqrt effective_position)

theorem applyPositionalEffect_eq (amplitude p : ℝ) :
    applyPositionalEffect amplitude p
      = (amplitude * Real.sqrt (1 - p), amplitude * Real.sqrt p) := by
  unfold applyPositionalEffect
  norm_num

/-- Claim C3: the positional split returns amplitude * sqrt(1 - p) on
channel A and amplitude * sqrt(p) on channel B, so the squares sum to
amplitude squared (constant-power crossfade); p = 0 gives (amplitude, 0),
p = 1 gives (0, amplitude) and p = 0.5 gives equal channels. -/
theorem claim_C3_positional_split (amplitude p : ℝ) (hp0 : 0 ≤ p) (hp1 : p ≤ 1) :
    (applyPositionalEffect amplitude p).1 = amplitude * Real.sqrt (1 - p) ∧
    (applyPositionalEffect amplitude p).2 = amplitude * Real.sqrt p ∧
    (applyPositionalEffect amplitude p).1 ^ 2 + (applyPositionalEffect amplitude p).2 ^ 2
      = amplitude ^ 2 ∧
    (p = 0 → applyPositionalEffect amplitude p = (amplitude, 0)) ∧
    (p = 1 → applyPositionalEffect amplitude p = (0, amplitude)) ∧
    (p = 0.5 →
      (applyPositionalEffect amplitude p).1 = (applyPositionalEffect amplitude p).2) := by
  rw [applyPositionalEffect_eq]
  refine ⟨rfl, rfl, ?_, ?_, ?_, ?_⟩
  · dsimp only
    rw [mul_pow, mul_pow, Real.sq_sqrt (by linarith : (0 : ℝ) ≤ 1 - p),
      Real.sq_sqrt hp0]
    ring
  · intro h
    subst h
    norm_num
  · intro h
    subst h
    norm_num
  · intro h
    subst h
    norm_num

/-- Witness for claim C3: the constant-power identity at amplitude 1,
position 0. -/
theorem claim_C3_witness :
    (applyPositionalEffect 1 0).1 ^ 2 + (applyPositionalEffect 1 0).2 ^ 2 = 1 ^ 2 :=
  (claim_C3_positional_split 1 0 (le_refl 0) (by norm_num)).2.2.1

/-- Substring containment over character lists, modelling the Python
expression sub in s used on the upper-cased algorithm name. -/
def strContainsSub (s sub : List Char) : Bool :=
  (List.range (s.length + 1)).any (fun i => sub.isPrefixOf (s.drop i))

/-- Substring containment on strings. -/
def strContains (s sub : String) : Bool := strContainsSub s.data sub.data

/-- _position_frequency (lines 570-572). -/
noncomputable def positionFrequency (position min_freq max_freq : ℝ) : ℝ :=
  min_freq + position * (max_freq - min_freq)

/-- _throbbing_frequency (lines 574-605): sinusoidal modulation of the
position frequency in the bottom region (full weight) and the upper
region (half weight), plain position mapping in between. -/
noncomputable def throbbingFrequency (position time min_freq max_freq
    bottom_threshold upper_threshold throbbing_intensity : ℝ) : ℝ :=
  let in_bottom_region := position < bottom_threshold
  let in_upper_region := position > upper_threshold
  if in_bottom_region ∨ in_upper_region then
    let throbbing_freq : ℝ := 2
    let throbbing_modulation :=
      Real.sin (2 * Real.pi * throbbing_freq * time) * throbbing_intensity
    let base_freq := positionFrequency position min_freq max_freq
    if in_bottom_region then base_freq * (1 + throbbing_modulation)
    else base_freq * (1 + throbbing_modulation * 0.5)
  else positionFrequency position min_freq max_freq

/-- _varied_frequency (lines 607-613). -/
noncomputable def variedFrequency (position time min_freq max_freq : ℝ) : ℝ :=
  let noise_value := Real.sin (time * 0.7) * 0.2 + Real.sin (time * 1.3) * 0.1
  positionFrequency position min_freq max_freq * (1 + noise_value)

/-- _blend_frequency (lines 615-620). -/
noncomputable def blendFrequency (position time min_freq max_freq : ℝ) : ℝ :=
  0.5 * positionFrequency position min_freq max_freq
    + 0.5 * variedFrequency position time min_freq max_freq

/-- _calculate_enhanced_frequency (lines 505-568): select the base
algorithm by substring matching on the upper-cased algorithm name, blend
with the velocity-driven frequency, and clamp to the channel bounds.
The channel bounds, the polled settings and the window-averaged velocity
are passed explicitly. -/
noncomputable def calculateEnhancedFrequency (algo_str : String)
    (position time min_freq max_freq bottom_threshold upper_threshold
     throbbing_intensity velocity_factor avg_velocity max_speed : ℝ) : ℝ :=
  let base_freq :=
    if strContains algo_str "POSITION" && !strContains algo_str "BLEND" then
      positionFrequency position min_freq max_freq
    else if strContains algo_str "THROB" then
      throbbingFrequency position time min_freq max_freq
        bottom_threshold upper_threshold throbbing_intensity
    else if strContains algo_str "VARIED" || strContains algo_str "NOISE" then
      variedFrequency position time min_freq max_freq
    else if strContains algo_str "BLEND" then
      blendFrequency position time min_freq max_freq
    else
      (min_freq + max_freq) / 2
  let normalized_speed := clamp (avg_velocity / max_speed) 0 1
  let velocity_based_freq := min_freq + normalized_speed * (max_freq - min_freq)
  let modulated_freq :=
    base_freq * (1 - velocity_factor) + velocity_based_freq * velocity_factor
  clamp modulated_freq min_freq max_freq

/-- Claim C5: for every algorithm-name string (recognized or not), every
position, time, polled setting and windowed velocity, and every channel
with min_freq <= max_freq, the enhanced frequency lies between min_freq
and max_freq. -/
theorem claim_C5_freq_bounds (algo_str : String)
    (position time min_freq max_freq bottom_threshold upper_threshold
     throbbing_intensity velocity_factor avg_velocity max_speed : ℝ)
    (h : min_freq ≤ max_freq) :
    min_freq ≤ calculateEnhancedFrequency algo_str position time min_freq max_freq
        bottom_threshold upper_threshold throbbing_intensity velocity_factor
        avg_velocity max_speed ∧
    calculateEnhancedFrequency algo_str position time min_freq max_freq
        bottom_threshold upper_threshold throbbing_intensity velocity_factor
        avg_velocity max_speed ≤ max_freq := by
  unfold calculateEnhancedFrequency
  exact ⟨le_clamp _ _ _, clamp_le _ _ _ h⟩

/-- Witness for claim C5 with the Fixed algorithm on the band 1..2. -/
theorem claim_C5_witness :
    1 ≤ calculateEnhancedFrequency "FIXED" 0 0 1 2 0.3 0.7 0.3 0.5 1 1 ∧
    calculateEnhancedFrequency "FIXED" 0 0 1 2 0.3 0.7 0.3 0.5 1 1 ≤ 2 :=
  claim_C5_freq_bounds "FIXED" 0 0 1 2 0.3 0.7 0.3 0.5 1 1 (by norm_num)

/-- Modelled from the spec: CoyotePulse from device.coyote.types (the
module is not among the sources); the spec's Pulse record carries a
frequency in Hz, an intensity in 0..100 and a duration in ms, all
integers. -/
structure CoyotePulse where
  frequency : ℤ
  intensity : ℤ
  duration : ℤ

/-- Modelled from the spec: CoyotePulses from device.coyote.types, one
pulse list per channel. -/
structure CoyotePulses where
  channel_a : List CoyotePulse
  channel_b : List CoyotePulse

/-- Per-channel packet duration of generate_packet (lines 490-491):
sum of the pulse durations, 0 for an empty channel. -/
def channelDuration (ps : List CoyotePulse) : ℤ :=
  if ps.isEmpty then 0 else (ps.map (fun p => p.duration)).sum

/-- The scheduling base duration of generate_packet (line 494):
max(1, min(duration_a, duration_b) if min(duration_a, duration_b) > 0
else max(duration_a, duration_b, 1)). -/
def schedMinDurationMs (duration_a duration_b : ℤ) : ℤ :=
  max 1 (if min duration_a duration_b > 0 then min duration_a duration_b
         else max duration_a (max duration_b 1))

/-- next_update_time of generate_packet (line 495). -/
def nextUpdateTime (current_time : ℚ) (duration_a duration_b : ℤ) : ℚ :=
  current_time + ((schedMinDurationMs duration_a duration_b : ℚ) / 1000) * 0.65

/-- Claim C2 counterexample: with both channel durations zero the code
schedules from a 1 ms fallback (a strictly positive interval), not from
the larger of the two durations (which is 0 and would schedule a
non-positive interval as the claim would have it). -/
theorem claim_C2_counterexample :
    channelDuration [CoyotePulse.mk 10 50 0] = 0 ∧
    nextUpdateTime 0 0 0 = 0.65 * (1 / 1000) ∧
    nextUpdateTime 0 0 0 ≠ 0 + 0.65 * ((max (0 : ℤ) 0 : ℚ) / 1000) := by
  refine ⟨rfl, ?_, ?_⟩
  · norm_num [nextUpdateTime, schedMinDurationMs]
  · norm_num [nextUpdateTime, schedMinDurationMs]

/-- Claim C2 (amended): the next-poll time is
current_time + 0.65 * (scheduling duration in ms)/1000 where the
scheduling duration is the minimum of the two positive channel durations,
the nonzero one when exactly one is zero, and the 1 ms fallback when both
are zero; the scheduled interval is always strictly positive. -/
theorem claim_C2_scheduling (pulses : CoyotePulses) (t : ℚ) (da db : ℤ)
    (hda : da = channelDuration pulses.channel_a)
    (hdb : db = channelDuration pulses.channel_b) :
    (0 < min da db → schedMinDurationMs da db = min da db) ∧
    (da = 0 → 0 < db → schedMinDurationMs da db = db) ∧
    (db = 0 → 0 < da → schedMinDurationMs da db = da) ∧
    (da = 0 → db = 0 → schedMinDurationMs da db = 1) ∧
    nextUpdateTime t da db = t + 0.65 * ((schedMinDurationMs da db : ℚ) / 1000) ∧
    t < nextUpdateTime t da db := by
  refine ⟨?_, ?_, ?_, ?_, ?_, ?_⟩
  · intro h
    unfold schedMinDurationMs
    rw [if_pos h]
    omega
  · intro h0 h1
    unfold schedMinDurationMs
    rw [if_neg (by omega)]
    omega
  · intro h0 h1
    unfold schedMinDurationMs
    rw [if_neg (by omega)]
    omega
  · intro h0 h1
    unfold schedMinDurationMs
    rw [if_neg (by omega)]
    omega
  · unfold nextUpdateTime
    ring
  · have h1 : (1 : ℚ) ≤ (schedMinDurationMs da db : ℚ) := by
      exact_mod_cast le_max_left 1
        (if min da db > 0 then min da db else max da (max db 1))
    unfold nextUpdateTime
    linarith

/-- Witness for claim C2 on a concrete 4-pulse packet with 10 ms pulses on
both channels: the schedule uses the common 40 ms train duration. -/
theorem claim_C2_witness :
    schedMinDurationMs (channelDuration (List.replicate 4 (CoyotePulse.mk 100 50 10)))
        (channelDuration (List.replicate 4 (CoyotePulse.mk 100 50 10)))
      = min (channelDuration (List.replicate 4 (CoyotePulse.mk 100 50 10)))
          (channelDuration (List.replicate 4 (CoyotePulse.mk 100 50 10))) :=
  (claim_C2_scheduling
    ⟨List.replicate 4 (CoyotePulse.mk 100 50 10), List.replicate 4 (CoyotePulse.mk 100 50 10)⟩
    0 _ _ rfl rfl).1 (by decide)

/-- Python int() on a float: truncation towards zero. -/
def pyInt (q : ℚ) : ℤ := if 0 ≤ q then ⌊q⌋ else ⌈q⌉

/-- _generate_motion_pulses (lines 736-770): clamp frequencies to the
hardware band, derive integer durations from 1000/frequency clamped to
the hardware duration bounds, clamp intensities to 0..100 and emit 4
identical pulses per channel.  The hardware constants (not among the
sources) are passed explicitly, durations in integer ms. -/
def generateMotionPulses (freq_a freq_b : ℚ) (intensity_a intensity_b : ℤ)
    (hw_min_freq hw_max_freq : ℚ) (min_duration_ms max_duration_ms : ℤ) : CoyotePulses :=
  let fa := clamp freq_a hw_min_freq hw_max_freq
  let fb := clamp freq_b hw_min_freq hw_max_freq
  let duration_a := pyInt (clamp (1000 / fa) (min_duration_ms : ℚ) (max_duration_ms : ℚ))
  let duration_b := pyInt (clamp (1000 / fb) (min_duration_ms : ℚ) (max_duration_ms : ℚ))
  let ia := clamp intensity_a 0 100
  let ib := clamp intensity_b 0 100
  let pulse_a : CoyotePulse := ⟨pyInt fa, ia, duration_a⟩
  let pulse_b : CoyotePulse := ⟨pyInt fb, ib, duration_b⟩
  ⟨List.replicate 4 pulse_a, List.replicate 4 pulse_b⟩

/-- Claim C9 counterexample: at 3 Hz (within a 1..1000 Hz hardware band
and 1..1000 ms duration bounds) the stored duration is the integer 333,
not the exact clamp value 1000/3. -/
theorem claim_C9_counterexample :
    (((generateMotionPulses 3 3 50 50 1 1000 1 1000).channel_a.getD 0 ⟨0, 0, 0⟩).duration : ℚ)
      ≠ clamp (1000 / clamp 3 1 1000) (1 : ℚ) 1000 := by
  have hc : clamp (1000 / clamp 3 1 1000) (1 : ℚ) 1000 = 1000 / 3 := by
    norm_num [clamp]
  have hd : ((generateMotionPulses 3 3 50 50 1 1000 1 1000).channel_a.getD 0 ⟨0, 0, 0⟩).duration
      = pyInt (clamp (1000 / clamp 3 1 1000) (1 : ℚ) 1000) := rfl
  rw [hd, hc]
  have : pyInt (1000 / 3 : ℚ) = 333 := by
    unfold pyInt
    rw [if_pos (by norm_num)]
    norm_num [Int.floor_eq_iff]
  rw [this]
  norm_num

/-- Claim C9 (amended): every packet emitted by _generate_motion_pulses
has exactly 4 pulses on each channel, all identical within a channel;
every intensity lies in 0..100; every duration is the integer truncation
of clamp(1000/freq, MIN_PULSE_DURATION_MS, MAX_PULSE_DURATION_MS)
computed from the hardware-clamped frequency, and with positive integer
hardware duration bounds it still lies within those bounds. -/
theorem claim_C9_packet (freq_a freq_b : ℚ) (intensity_a intensity_b : ℤ)
    (hw_min hw_max : ℚ) (min_dur max_dur : ℤ) (P : CoyotePulses)
    (hP : P = generateMotionPulses freq_a freq_b intensity_a intensity_b
        hw_min hw_max min_dur max_dur)
    (hhw0 : 0 < hw_min) (hhw : hw_min ≤ hw_max)
    (hd0 : 0 < min_dur) (hd : min_dur ≤ max_dur) :
    P.channel_a.length = 4 ∧ P.channel_b.length = 4 ∧
    (∀ p ∈ P.channel_a, ∀ q ∈ P.channel_a, p = q) ∧
    (∀ p ∈ P.channel_b, ∀ q ∈ P.channel_b, p = q) ∧
    (∀ p ∈ P.channel_a,
      0 ≤ p.intensity ∧ p.intensity ≤ 100 ∧
      p.duration
        = pyInt (clamp (1000 / clamp freq_a hw_min hw_max) (min_dur : ℚ) (max_dur : ℚ)) ∧
      min_dur ≤ p.duration ∧ p.duration ≤ max_dur) ∧
    (∀ p ∈ P.channel_b,
      0 ≤ p.intensity ∧ p.intensity ≤ 100 ∧
      p.duration
        = pyInt (clamp (1000 / clamp freq_b hw_min hw_max) (min_dur : ℚ) (max_dur : ℚ)) ∧
      min_dur ≤ p.duration ∧ p.duration ≤ max_dur) := by
  have duration_bounds : ∀ f : ℚ,
      min_dur ≤ pyInt (clamp (1000 / clamp f hw_min hw_max) (min_dur : ℚ) (max_dur : ℚ)) ∧
      pyInt (clamp (1000 / clamp f hw_min hw_max) (min_dur : ℚ) (max_dur : ℚ)) ≤ max_dur := by
    intro f
    have hx0 : (min_dur : ℚ) ≤ clamp (1000 / clamp f hw_min hw_max) (min_dur : ℚ) (max_dur : ℚ) :=
      le_clamp _ _ _
    have hx1 : clamp (1000 / clamp f hw_min hw_max) (min_dur : ℚ) (max_dur : ℚ) ≤ (max_dur : ℚ) :=
      clamp_le _ _ _ (by exact_mod_cast hd)
    have hxnn : (0 : ℚ) ≤ clamp (1000 / clamp f hw_min hw_max) (min_dur : ℚ) (max_dur : ℚ) :=
      le_trans (by exact_mod_cast hd0.le) hx0
    constructor
    · unfold pyInt
      rw [if_pos hxnn]
      exact Int.le_floor.mpr hx0
    · unfold pyInt
      rw [if_pos hxnn]
      have := le_trans (Int.floor_le
        (clamp (1000 / clamp f hw_min hw_max) (min_dur : ℚ) (max_dur : ℚ))) hx1
      exact_mod_cast this
  subst hP
  unfold generateMotionPulses
  dsimp only
  refine ⟨List.length_replicate 4 _, List.length_replicate 4 _, ?_, ?_, ?_, ?_⟩
  · intro p hp q hq
    rw [List.eq_of_mem_replicate hp, List.eq_of_mem_replicate hq]
  · intro p hp q hq
    rw [List.eq_of_mem_replicate hp, List.eq_of_mem_replicate hq]
  · intro p hp
    rw [List.eq_of_mem_replicate hp]
    exact ⟨le_clamp _ _ _, clamp_le _ _ _ (by norm_num), rfl,
      (duration_bounds freq_a).1, (duration_bounds freq_a).2⟩
  · intro p hp
    rw [List.eq_of_mem_replicate hp]
    exact ⟨le_clamp _ _ _, clamp_le _ _ _ (by norm_num), rfl,
      (duration_bounds freq_b).1, (duration_bounds freq_b).2⟩

/-- Witness for claim C9 on a concrete packet (10 Hz and 20 Hz, hardware
band 1..1000 Hz, durations 5..240 ms). -/
theorem claim_C9_witness :
    (generateMotionPulses 10 20 50 120 1 1000 5 240).channel_a.length = 4 :=
  (claim_C9_packet 10 20 50 120 1 1000 5 240 _ rfl (by norm_num) (by norm_num)
    (by norm_num) (by norm_num)).1

/-- Velocity-sign classification of the calibration-time stroke counter
(_precompute_amplitude_range line 138). -/
def calibVelocitySign (vel : ℚ) : ℤ :=
  if vel > 0.01 then 1 else if vel < -0.01 then -1 else 0

/-- Velocity-sign classification of the run-time stroke detector
(_calculate_dynamic_volume line 279). -/
def dynVelocitySign (v : ℚ) : ℤ :=
  if v > 0.01 then 1 else if v < -0.01 then -1 else 0

/-- One iteration of the calibration-time stroke-counting loop
(_precompute_amplitude_range lines 135-142), acting on the pair
(direction_changes, last_sign). -/
def calibStrokeStep (acc : ℕ × ℤ) (vel : ℚ) : ℕ × ℤ :=
  let current_sign := calibVelocitySign vel
  (if current_sign ≠ 0 ∧ acc.2 ≠ 0 ∧ current_sign ≠ acc.2 then acc.1 + 1 else acc.1,
   if current_sign ≠ 0 then current_sign else acc.2)

/-- The whole calibration-time stroke count, starting from
direction_changes = 0 and last_sign = 0. -/
def directionChangeCount (velocities : List ℚ) : ℕ :=
  (velocities.foldl calibStrokeStep (0, 0)).1

/-- Dynamic-volume state: dynamic_velocity_history, last_velocity_sign
and direction_change_times (lines 41-43). -/
structure DynVolState where
  dynamic_velocity_history : List (ℚ × ℚ)
  last_velocity_sign : ℤ
  direction_change_times : List ℚ

/-- Velocity history after appending the current sample and pruning to
the window (_calculate_dynamic_volume lines 276, 286-287). -/
def prunedHistory (st : DynVolState) (current_velocity current_time window_size : ℚ) :
    List (ℚ × ℚ) :=
  (st.dynamic_velocity_history ++ [(current_time, current_velocity)]).filter
    (fun p => decide (current_time - window_size ≤ p.1))

/-- Direction-change timestamps after the run-time stroke detection
appended the current time (lines 278-281), before pruning. -/
def dynStrokeAppend (st : DynVolState) (current_velocity current_time : ℚ) : List ℚ :=
  if dynVelocitySign current_velocity ≠ 0 ∧ st.last_velocity_sign ≠ 0 ∧
      dynVelocitySign current_velocity ≠ st.last_velocity_sign then
    st.direction_change_times ++ [current_time]
  else st.direction_change_times

/-- Direction-change timestamps after pruning to the window (line 288). -/
def dynDirectionChangeTimes (st : DynVolState) (current_velocity current_time window_size : ℚ) :
    List ℚ :=
  (dynStrokeAppend st current_velocity current_time).filter
    (fun x => decide (current_time - window_size ≤ x))

/-- Average absolute velocity over the pruned window (lines 290-294),
falling back to the current sample's absolute velocity on an empty
history. -/
def dynAvgVelocity (hist : List (ℚ × ℚ)) (current_velocity : ℚ) : ℚ :=
  if hist.length > 0 then (hist.map (fun p => |p.2|)).sum / (hist.length : ℚ)
  else |current_velocity|

/-- The combined intensity metric (lines 304-310): mix-weighted sum of
the clamped normalized velocity and the clamped normalized stroke rate. -/
def intensityMetric (avg_velocity stroke_rate mix_ratio max_speed max_stroke_rate : ℚ) : ℚ :=
  mix_ratio * clamp (avg_velocity / max_speed) 0 1
    + (1 - mix_ratio) * clamp (stroke_rate / max_stroke_rate) 0 1

/-- _calculate_dynamic_volume (lines 261-329): track history and strokes,
prune to the window, combine the normalized metrics and map through the
base-volume floor and the sensitivity blend.  Returns the updated state
and the dynamic volume. -/
def calcDynamicVolume (st : DynVolState) (current_velocity current_time : ℚ)
    (window_size sensitivity base_volume mix_ratio max_speed max_stroke_rate : ℚ) :
    DynVolState × ℚ :=
  let current_sign := dynVelocitySign current_velocity
  let hist := prunedHistory st current_velocity current_time window_size
  let dct := dynDirectionChangeTimes st current_velocity current_time window_size
  let last_sign1 := if current_sign ≠ 0 then current_sign else st.last_velocity_sign
  let avg_velocity := dynAvgVelocity hist current_velocity
  let stroke_rate := if window_size > 0 then (dct.length : ℚ) / window_size else 0
  let im := intensityMetric avg_velocity stroke_rate mix_ratio max_speed max_stroke_rate
  let full_range_volume := base_volume + (1 - base_volume) * im
  let dynamic_volume := 1 - sensitivity * (1 - full_range_volume)
  (⟨hist, last_sign1, dct⟩, dynamic_volume)

/-- get_pulses_at_time lines 659-663: current_dynamic_volume is the
freshly computed value when the dynamic feature is enabled, else 1.0. -/
def currentDynamicVolume (dynamic_enabled : Bool) (computed_volume : ℚ) : ℚ :=
  if dynamic_enabled then computed_volume else 1

theorem calcDynamicVolume_snd (st : DynVolState) (v t w s bv mix ms msr : ℚ) :
    (calcDynamicVolume st v t w s bv mix ms msr).2
      = 1 - s * (1 - (bv + (1 - bv)
          * intensityMetric (dynAvgVelocity (prunedHistory st v t w) v)
              (if w > 0 then ((dynDirectionChangeTimes st v t w).length : ℚ) / w else 0)
              mix ms msr)) := rfl

/-- Claim C6: the dynamic volume equals
1 - sensitivity * (1 - (base_volume + (1 - base_volume) * intensity))
with intensity the mix-weighted sum of the normalized velocity and the
normalized stroke rate; sensitivity 0 yields exactly 1, sensitivity 1
with base_volume 0.2 and intensity 0 yields exactly 0.2, and when the
dynamic feature is disabled the engine's current dynamic volume is 1
regardless of any computed value. -/
theorem claim_C6_dynamic_volume (st : DynVolState) (v t w s bv mix ms msr : ℚ) :
    (calcDynamicVolume st v t w s bv mix ms msr).2
      = 1 - s * (1 - (bv + (1 - bv)
          * intensityMetric (dynAvgVelocity (prunedHistory st v t w) v)
              (if w > 0 then ((dynDirectionChangeTimes st v t w).length : ℚ) / w else 0)
              mix ms msr)) ∧
    (s = 0 → (calcDynamicVolume st v t w s bv mix ms msr).2 = 1) ∧
    (s = 1 → bv = 0.2 →
      intensityMetric (dynAvgVelocity (prunedHistory st v t w) v)
          (if w > 0 then ((dynDirectionChangeTimes st v t w).length : ℚ) / w else 0)
          mix ms msr = 0 →
      (calcDynamicVolume st v t w s bv mix ms msr).2 = 0.2) ∧
    (∀ x : ℚ, currentDynamicVolume false x = 1) := by
  refine ⟨calcDynamicVolume_snd st v t w s bv mix ms msr, ?_, ?_, fun x => rfl⟩
  · intro hs
    rw [calcDynamicVolume_snd, hs]
    ring
  · intro hs hbv hI
    rw [calcDynamicVolume_snd, hs, hbv, hI]
    norm_num

/-- Witness for claim C6: zero sensitivity on an empty state gives
dynamic volume exactly 1. -/
theorem claim_C6_witness :
    (calcDynamicVolume ⟨[], 0, []⟩ 0 0 1 0 0.5 0.5 1 1).2 = 1 :=
  (claim_C6_dynamic_volume ⟨[], 0, []⟩ 0 0 1 0 0.5 0.5 1 1).2.1 rfl

/-- Claim C8: the run-time and calibration-time velocity-sign
classifications are extensionally identical (threshold 0.01 on either
side, neutral in between), neutral samples never update the stored last
sign on either side, and a stroke is recorded exactly when two
consecutively classified non-neutral signs differ. -/
theorem claim_C8_sign_refinement :
    (∀ v : ℚ, calibVelocitySign v = dynVelocitySign v) ∧
    (∀ v : ℚ, dynVelocitySign v = if v > 0.01 then 1 else if v < -0.01 then -1 else 0) ∧
    (∀ (acc : ℕ × ℤ) (v : ℚ), calibVelocitySign v = 0 → (calibStrokeStep acc v).2 = acc.2) ∧
    (∀ (st : DynVolState) (v t w s bv mix ms msr : ℚ), dynVelocitySign v = 0 →
      (calcDynamicVolume st v t w s bv mix ms msr).1.last_velocity_sign
        = st.last_velocity_sign) ∧
    (∀ (acc : ℕ × ℤ) (v : ℚ),
      (calibStrokeStep acc v).1 = acc.1 + 1 ↔
        calibVelocitySign v ≠ 0 ∧ acc.2 ≠ 0 ∧ calibVelocitySign v ≠ acc.2) ∧
    (∀ (st : DynVolState) (v t : ℚ),
      dynStrokeAppend st v t = st.direction_change_times ++ [t] ↔
        dynVelocitySign v ≠ 0 ∧ st.last_velocity_sign ≠ 0 ∧
          dynVelocitySign v ≠ st.last_velocity_sign) := by
  refine ⟨fun v => rfl, fun v => rfl, ?_, ?_, ?_, ?_⟩
  · intro acc v h
    unfold calibStrokeStep
    dsimp only
    rw [if_neg (not_not_intro h)]
  · intro st v t w s bv mix ms msr h
    unfold calcDynamicVolume
    dsimp only
    rw [if_neg (not_not_intro h)]
  · intro acc v
    unfold calibStrokeStep
    dsimp only
    split_ifs with hc
    · exact ⟨fun _ => hc, fun _ => rfl⟩
    · exact ⟨fun h => absurd h (by omega), fun h => absurd h hc⟩
  · intro st v t
    unfold dynStrokeAppend
    split_ifs with hc
    · exact ⟨fun _ => hc, fun _ => rfl⟩
    · constructor
      · intro h
        exfalso
        have hlen := congrArg List.length h
        simp at hlen
      · intro h
        exact absurd h hc

/-- Witness for claim C8: a neutral velocity sample leaves the
calibration-time last sign untouched. -/
theorem claim_C8_witness : (calibStrokeStep (0, 1) 0).2 = 1 :=
  claim_C8_sign_refinement.2.2.1 (0, 1) 0 (by norm_num [calibVelocitySign])

/-- Claim C10: with a nonnegative window size the freshly appended sample
always survives pruning, so the averaging step runs on a non-empty
history (the empty-history fallback is unreachable) and divides by a
positive count. -/
theorem claim_C10_history_nonempty (st : DynVolState) (v t w : ℚ) (hw : 0 ≤ w) :
    (t, v) ∈ prunedHistory st v t w ∧
    0 < (prunedHistory st v t w).length ∧
    dynAvgVelocity (prunedHistory st v t w) v
      = ((prunedHistory st v t w).map (fun p => |p.2|)).sum
          / ((prunedHistory st v t w).length : ℚ) := by
  have hmem : (t, v) ∈ prunedHistory st v t w := by
    unfold prunedHistory
    apply List.mem_filter.mpr
    constructor
    · exact List.mem_append_right _ (List.mem_singleton_self _)
    · simp only [decide_eq_true_eq]
      linarith
  have hne : prunedHistory st v t w ≠ [] := fun he => by
    rw [he] at hmem
    exact List.not_mem_nil _ hmem
  have hlen : 0 < (prunedHistory st v t w).length := List.length_pos.mpr hne
  refine ⟨hmem, hlen, ?_⟩
  unfold dynAvgVelocity
  rw [if_pos hlen]

/-- Witness for claim C10 at window size 0 on the empty state. -/
theorem claim_C10_witness : ((0 : ℚ), (0 : ℚ)) ∈ prunedHistory ⟨[], 0, []⟩ 0 0 0 :=
  (claim_C10_history_nonempty ⟨[], 0, []⟩ 0 0 0 (le_refl 0)).1

/-- np.percentile with its default linear interpolation between order
statistics, over the rationals (0 on the empty list, which numpy
rejects; the callers below never reach it). -/
def percentile (xs : List ℚ) (p : ℚ) : ℚ :=
  let sorted := xs.mergeSort (fun a b => decide (a ≤ b))
  if sorted.isEmpty then 0
  else
    let n := sorted.length
    let rank := p / 100 * ((n : ℚ) - 1)
    let lo := (⌊rank⌋).toNat
    let frac := rank - (⌊rank⌋ : ℚ)
    let a := sorted.getD lo 0
    let b := sorted.getD (lo + 1) a
    a + frac * (b - a)

/-- np.gradient over a non-uniform time axis: one-sided differences at
the two ends, the second-order weighted central difference in the
interior. -/
def npGradient (f t : List ℚ) : List ℚ :=
  (List.range f.length).map (fun i =>
    if i = 0 then (f.getD 1 0 - f.getD 0 0) / (t.getD 1 0 - t.getD 0 0)
    else if i = f.length - 1 then
      (f.getD i 0 - f.getD (i - 1) 0) / (t.getD i 0 - t.getD (i - 1) 0)
    else
      let hs := t.getD i 0 - t.getD (i - 1) 0
      let hd := t.getD (i + 1) 0 - t.getD i 0
      (hs ^ 2 * f.getD (i + 1) 0 + (hd ^ 2 - hs ^ 2) * f.getD i 0
        - hd ^ 2 * f.getD (i - 1) 0) / (hs * hd * (hd + hs)))

/-- Centers visited by the while-loop of _recalibrate_velocity_range
(lines 172-187): times[0], times[0] + step, ... while still at most
times[-1].  The source loop would not terminate for step <= 0; that case
is excluded by the spec's precondition window_seconds > 0 and is
modelled as an empty scan. -/
def windowCenters (t0 tEnd step : ℚ) : List ℚ :=
  if 0 < step ∧ t0 ≤ tEnd then
    (List.range ((⌊(tEnd - t0) / step⌋).toNat + 1)).map (fun k => t0 + (k : ℚ) * step)
  else []

/-- The sliding-window average-velocity scan of _recalibrate_velocity_range
(lines 168-187): for each center, the mean absolute velocity of the
samples inside the window, skipped when the window holds no sample. -/
def recalibWindowAverages (velocity_data : List (ℚ × ℚ)) (times : List ℚ)
    (calibration_window : ℚ) : List ℚ :=
  let step_size := calibration_window / 2
  (windowCenters (times.headD 0) (times.getLastD 0) step_size).filterMap (fun c =>
    let velocities_in_window :=
      (velocity_data.filter (fun q =>
        decide (c - calibration_window / 2 ≤ q.1)
          && decide (q.1 ≤ c + calibration_window / 2))).map (fun q => |q.2|)
    if velocities_in_window.isEmpty then none
    else some (velocities_in_window.sum / (velocities_in_window.length : ℚ)))

/-- _recalibrate_velocity_range (lines 147-197): 0.5 when fewer than two
velocity samples exist, otherwise the 95th percentile of the window
averages floored at 0.5 (0.5 again when no window held a sample).  The
polled timeframe setting is passed explicitly. -/
def recalibratedMaxSpeed (velocity_data : List (ℚ × ℚ)) (times : List ℚ)
    (configured_timeframe : ℚ) : ℚ :=
  if velocity_data.length < 2 then 0.5
  else
    let time_span := if times.length > 1 then times.getLastD 0 - times.headD 0 else 1
    let calibration_window :=
      if time_span > 0 then min configured_timeframe (time_span / 4) else 5
    let window_averages := recalibWindowAverages velocity_data times calibration_window
    if window_averages.isEmpty then 0.5
    else max (percentile window_averages 95) 0.5

/-- The stroke-rate calibration of _precompute_amplitude_range
(lines 131-145): direction changes per second over the script's
timespan, times 1.5, floored at 1. -/
def calibMaxStrokeRate (velocities times : List ℚ) : ℚ :=
  let time_span := if times.length > 1 then times.getLastD 0 - times.headD 0 else 1
  let avg_stroke_rate :=
    if time_span > 0 then (directionChangeCount velocities : ℚ) / time_span else 1
  max (avg_stroke_rate * 1.5) 1

/-- The three auto-calibrated normalization constants; the constructor
defaults are 5.0, 80.0 and 2.0 (lines 46-48). -/
structure MotionCalibration where
  calibrated_max_speed : ℚ
  calibrated_max_magnitude : ℚ
  calibrated_max_stroke_rate : ℚ

/-- _precompute_motion_data (lines 66-117) with
_precompute_amplitude_range (lines 119-145): with fewer than two script
samples the constructor defaults are kept; otherwise velocity and
acceleration are numpy gradients, max_magnitude is the floored 95th
percentile of the absolute accelerations, max_speed is rewritten by the
recalibration scan, and max_stroke_rate comes from the counted
direction changes. -/
def precomputeMotionData (times positions : List ℚ) (configured_timeframe : ℚ) :
    MotionCalibration :=
  if positions.length < 2 ∨ times.length < 2 then ⟨5, 80, 2⟩
  else
    let velocities := npGradient positions times
    let accelerations := npGradient velocities times
    let velocity_data := times.zip velocities
    let magnitudes := accelerations.map (fun a => |a|)
    { calibrated_max_speed := recalibratedMaxSpeed velocity_data times configured_timeframe
      calibrated_max_magnitude := max (percentile magnitudes 95) 5
      calibrated_max_stroke_rate := calibMaxStrokeRate velocities times }

theorem recalibratedMaxSpeed_ge (velocity_data : List (ℚ × ℚ)) (times : List ℚ)
    (tf : ℚ) : 0.5 ≤ recalibratedMaxSpeed velocity_data times tf := by
  unfold recalibratedMaxSpeed
  dsimp only
  split_ifs <;> norm_num

theorem calibMaxStrokeRate_ge (velocities times : List ℚ) :
    1 ≤ calibMaxStrokeRate velocities times := by
  unfold calibMaxStrokeRate
  exact le_max_right _ _

/-- Claim C7: after profile construction (including the degenerate
fewer-than-two-sample script) and after every recalibration, the
calibration constants respect their floors: max_speed at least 0.5,
max_magnitude at least 5, max_stroke_rate at least 1, the latter being
max(1.5 * direction_change_count / timespan, 1) whenever the script's
timespan is positive. -/
theorem claim_C7_calibration_floors :
    (∀ (times positions : List ℚ) (tf : ℚ),
      0.5 ≤ (precomputeMotionData times positions tf).calibrated_max_speed ∧
      5 ≤ (precomputeMotionData times positions tf).calibrated_max_magnitude ∧
      1 ≤ (precomputeMotionData times positions tf).calibrated_max_stroke_rate) ∧
    (∀ (velocity_data : List (ℚ × ℚ)) (times : List ℚ) (tf : ℚ),
      0.5 ≤ recalibratedMaxSpeed velocity_data times tf) ∧
    (∀ (velocities times : List ℚ), 1 ≤ calibMaxStrokeRate velocities times) ∧
    (∀ (velocities times : List ℚ),
      times.length > 1 → 0 < times.getLastD 0 - times.headD 0 →
      calibMaxStrokeRate velocities times
        = max (1.5 * ((directionChangeCount velocities : ℚ)
            / (times.getLastD 0 - times.headD 0))) 1) := by
  refine ⟨?_, recalibratedMaxSpeed_ge, calibMaxStrokeRate_ge, ?_⟩
  · intro times positions tf
    unfold precomputeMotionData
    dsimp only
    split_ifs
    · exact ⟨by norm_num, by norm_num, by norm_num⟩
    · exact ⟨recalibratedMaxSpeed_ge _ _ _, le_max_right _ _, calibMaxStrokeRate_ge _ _⟩
  · intro velocities times h1 h2
    unfold calibMaxStrokeRate
    dsimp only
    have hspan : (if times.length > 1 then times.getLastD 0 - times.headD 0 else 1)
        = times.getLastD 0 - times.headD 0 := if_pos h1
    rw [hspan, if_pos h2, mul_comm]

/-- Witness for claim C7: the stroke-rate formula on the two-sample
script with times 0 and 2. -/
theorem claim_C7_witness :
    calibMaxStrokeRate [1, -1] [0, 2]
      = max (1.5 * ((directionChangeCount [1, -1] : ℚ)
          / (([0, 2] : List ℚ).getLastD 0 - ([0, 2] : List ℚ).headD 0))) 1 :=
  claim_C7_calibration_floors.2.2.2 [1, -1] [0, 2] (by norm_num) (by norm_num)

end CoyoteMotion
